import Mathlib

/-!
Shallow embedding of the fiaas-deploy-daemon core covered by the spec:
the deployment synthesizers in
`fiaas_deploy_daemon/deployer/kubernetes/deployment/deployer.py` (current)
and `fiaas_deploy_daemon/deployer/kubernetes/deployment.py` (legacy variant),
plus models of the conflict-retry policy and the versioned spec factory
(whose sources are not part of the four files; they are modelled from the
spec and the test suite, and marked as such in their doc comments).

Python dictionaries are modelled as association lists in insertion order.
Python 2 dictionaries iterate in a hash-determined order; every theorem
below that depends on iteration order is robust to the particular order
chosen (the counterexample about unsortedness of the legacy environment
builder only uses that all constant names compare above the global name
used, which holds for any iteration order).
-/

/-- Whether an association list (a Python dict) has the given key
(`key in d` in Python). -/
def keys_contain (d : List (String × String)) (k : String) : Bool :=
  d.any (fun kv => kv.1 == k)

/-- Setting `d[k] = v` on a Python dict: replace in place when the key is
present, otherwise append (insertion order). -/
def dict_set (d : List (String × String)) (k v : String) : List (String × String) :=
  if keys_contain d k then d.map (fun kv => if kv.1 == k then (k, v) else kv)
  else d ++ [(k, v)]

/-- `d.update(kvs)` on a Python dict. -/
def dict_update (d : List (String × String)) (kvs : List (String × String)) :
    List (String × String) :=
  kvs.foldl (fun acc kv => dict_set acc kv.1 kv.2) d

/-- Lookup `d[k]` on a Python dict. -/
def dict_get (d : List (String × String)) (k : String) : Option String :=
  (d.find? (fun kv => kv.1 == k)).map (fun kv => kv.2)

/-- Whether the character list `needle` occurs as a contiguous infix of
`hay` (Python `needle in hay` on strings). -/
def list_contains_sub (needle : List Char) : List Char → Bool
  | [] => needle.isEmpty
  | c :: cs => needle.isPrefixOf (c :: cs) || list_contains_sub needle cs

/-- Python substring containment `needle in hay`. -/
def py_in (needle hay : String) : Bool :=
  list_contains_sub needle.toList hay.toList

/-- Kubernetes `IntOrString` values (rolling-update surge bounds, probe
ports): either an integer or a string such as a percentage or port name. -/
inductive IntOrString where
  | int (n : Nat)
  | str (s : String)
deriving DecidableEq, Repr

/-- `k8s.models.common.ObjectMeta`: the fields populated by the deployer. -/
structure ObjectMeta where
  name : String
  namespace_ : String
  labels : List (String × String)
  annotations : List (String × String)
deriving DecidableEq, Repr

/-- `k8s.models.pod.ResourceFieldSelector`. -/
structure ResourceFieldSelector where
  containerName : String
  resource : String
  divisor : Nat
deriving DecidableEq, Repr

/-- `k8s.models.pod.ObjectFieldSelector`. -/
structure ObjectFieldSelector where
  fieldPath : String
deriving DecidableEq, Repr

/-- `k8s.models.pod.EnvVarSource`: a computed field reference, as opposed
to a literal value. -/
structure EnvVarSource where
  resourceFieldRef : Option ResourceFieldSelector := none
  fieldRef : Option ObjectFieldSelector := none
deriving DecidableEq, Repr

/-- `k8s.models.pod.EnvVar`: a literal value or a field reference. -/
structure EnvVar where
  name : String
  value : Option String := none
  valueFrom : Option EnvVarSource := none
deriving DecidableEq, Repr

/-- `k8s.models.pod.ContainerPort`. -/
structure ContainerPort where
  name : String
  containerPort : Nat
deriving DecidableEq, Repr

/-- `k8s.models.pod.HTTPHeader`. -/
structure HTTPHeader where
  name : String
  value : String
deriving DecidableEq, Repr

/-- `k8s.models.pod.HTTPGetAction`. -/
structure HTTPGetAction where
  path : String
  port : IntOrString
  httpHeaders : List HTTPHeader
deriving DecidableEq, Repr

/-- `k8s.models.pod.TCPSocketAction`. -/
structure TCPSocketAction where
  port : IntOrString
deriving DecidableEq, Repr

/-- `k8s.models.pod.ExecAction`. -/
structure ExecAction where
  command : List String
deriving DecidableEq, Repr

/-- `k8s.models.pod.Probe`: unset fields are `none`, as in the client
library where unset fields are omitted from the serialized object. -/
structure Probe where
  initialDelaySeconds : Option Nat := none
  timeoutSeconds : Option Nat := none
  successThreshold : Option Nat := none
  failureThreshold : Option Nat := none
  periodSeconds : Option Nat := none
  httpGet : Option HTTPGetAction := none
  tcpSocket : Option TCPSocketAction := none
  _exec : Option ExecAction := none
deriving DecidableEq, Repr

/-- `k8s.models.pod.Handler` (only the exec form is used). -/
structure Handler where
  _exec : Option ExecAction := none
deriving DecidableEq, Repr

/-- `k8s.models.pod.Lifecycle`. -/
structure Lifecycle where
  preStop : Handler
deriving DecidableEq, Repr

/-- `k8s.models.pod.VolumeMount`. -/
structure VolumeMount where
  name : String
  readOnly : Bool
  mountPath : String
deriving DecidableEq, Repr

/-- `k8s.models.pod.ConfigMapVolumeSource`. -/
structure ConfigMapVolumeSource where
  name : String
  optional : Bool
deriving DecidableEq, Repr

/-- `k8s.models.pod.EmptyDirVolumeSource`. -/
structure EmptyDirVolumeSource where
  medium : Option String := none
deriving DecidableEq, Repr

/-- `k8s.models.pod.Volume`: the sources used by the current deployer. -/
structure Volume where
  name : String
  configMap : Option ConfigMapVolumeSource := none
  emptyDir : Option EmptyDirVolumeSource := none
deriving DecidableEq, Repr

/-- `k8s.models.pod.ConfigMapEnvSource`. -/
structure ConfigMapEnvSource where
  name : String
  optional : Bool
deriving DecidableEq, Repr

/-- `k8s.models.pod.EnvFromSource`. -/
structure EnvFromSource where
  configMapRef : ConfigMapEnvSource
deriving DecidableEq, Repr

/-- The `cpu`/`memory` map produced by `as_dict` in
`_make_resource_requirements`. -/
structure ResourceDict where
  cpu : Option String
  memory : Option String
deriving DecidableEq, Repr

/-- `k8s.models.pod.ResourceRequirements`. -/
structure ResourceRequirements where
  limits : ResourceDict
  requests : ResourceDict
deriving DecidableEq, Repr

/-- `k8s.models.pod.Container`: the fields populated by the deployer. -/
structure Container where
  name : String
  image : String
  ports : List ContainerPort
  env : List EnvVar
  envFrom : List EnvFromSource
  lifecycle : Option Lifecycle
  livenessProbe : Probe
  readinessProbe : Probe
  imagePullPolicy : String
  volumeMounts : List VolumeMount
  resources : ResourceRequirements
deriving DecidableEq, Repr

/-- `k8s.models.pod.PodSpec`: the fields populated by the deployer. -/
structure PodSpec where
  containers : List Container
  initContainers : List Container
  volumes : List Volume
  serviceAccountName : String
  automountServiceAccountToken : Bool
  terminationGracePeriodSeconds : Nat
deriving DecidableEq, Repr

/-- `k8s.models.deployment.PodTemplateSpec`. -/
structure PodTemplateSpec where
  metadata : ObjectMeta
  spec : PodSpec
deriving DecidableEq, Repr

/-- `k8s.models.deployment.LabelSelector`. -/
structure LabelSelector where
  matchLabels : List (String × String)
deriving DecidableEq, Repr

/-- `k8s.models.deployment.RollingUpdateDeployment`. -/
structure RollingUpdateDeployment where
  maxUnavailable : IntOrString
  maxSurge : IntOrString
deriving DecidableEq, Repr

/-- `k8s.models.deployment.DeploymentStrategy`. -/
structure DeploymentStrategy where
  rollingUpdate : RollingUpdateDeployment
deriving DecidableEq, Repr

/-- `k8s.models.deployment.DeploymentSpec`: the fields populated by the
deployer. -/
structure DeploymentSpec where
  replicas : Nat
  selector : LabelSelector
  template : PodTemplateSpec
  revisionHistoryLimit : Nat
  strategy : DeploymentStrategy
deriving DecidableEq, Repr

/-- `k8s.models.deployment.Deployment`. -/
structure Deployment where
  metadata : ObjectMeta
  spec : DeploymentSpec
deriving DecidableEq, Repr

/-- A published container port in the canonical app spec. -/
structure PortSpec where
  name : String
  target_port : Nat
deriving DecidableEq, Repr

/-- The `http` mechanism of a health-check spec. -/
structure HttpCheckSpec where
  path : String
  port : IntOrString
  http_headers : List (String × String)
deriving DecidableEq, Repr

/-- The `tcp` mechanism of a health-check spec. -/
structure TcpCheckSpec where
  port : IntOrString
deriving DecidableEq, Repr

/-- The `execute` mechanism of a health-check spec: a single command
string to be shell-word-split. -/
structure ExecCheckSpec where
  command : String
deriving DecidableEq, Repr

/-- A health-check spec: at most one mechanism populated, plus timing
parameters. -/
structure CheckSpec where
  http : Option HttpCheckSpec := none
  tcp : Option TcpCheckSpec := none
  execute : Option ExecCheckSpec := none
  initial_delay_seconds : Nat
  timeout_seconds : Nat
  success_threshold : Nat
  failure_threshold : Nat
  period_seconds : Nat
deriving DecidableEq, Repr

/-- The liveness/readiness pair of the canonical app spec. -/
structure HealthChecksSpec where
  liveness : CheckSpec
  readiness : CheckSpec
deriving DecidableEq, Repr

/-- One side (limits or requests) of the resource spec. -/
structure ResourceRequirementSpec where
  cpu : Option String
  memory : Option String
deriving DecidableEq, Repr

/-- The resource spec of the canonical app spec. -/
structure ResourcesSpec where
  limits : ResourceRequirementSpec
  requests : ResourceRequirementSpec
deriving DecidableEq, Repr

/-- Labels or annotations partitioned per target-object kind; only the
`deployment` and `pod` partitions are used by this deployer. -/
structure LabelAndAnnotationSpec where
  deployment : List (String × String)
  pod : List (String × String)
deriving DecidableEq, Repr

/-- The canonical app spec (`app_spec`), restricted to the attributes the
deployment synthesizer reads. `autoscaler_enabled` stands for the
autoscaler-enablement flag consulted by `should_have_autoscaler`;
`datadog_enabled` for the datadog integration's `enabled` flag consulted
by whole-spec validation. -/
structure AppSpec where
  name : String
  namespace_ : String
  image : String
  version : String
  replicas : Nat
  ports : List PortSpec
  health_checks : HealthChecksSpec
  resources : ResourcesSpec
  labels : LabelAndAnnotationSpec
  annotations : LabelAndAnnotationSpec
  admin_access : Bool
  singleton : Bool
  autoscaler_enabled : Bool
  datadog_enabled : Bool
deriving DecidableEq, Repr

/-- The daemon-wide configuration values read by the deployers. An empty
`environment` string models a falsy `config.environment`. -/
structure Config where
  infrastructure : String
  environment : String
  log_format : String
  global_env : List (String × String)
  use_in_memory_emptydirs : Bool
  pre_stop_delay : Nat
  deployment_max_surge : IntOrString
  deployment_max_unavailable : IntOrString
  datadog_container_image : Option String
deriving DecidableEq, Repr

/-- Modelled from the spec: `should_have_autoscaler` (in
`deployer/kubernetes/autoscaler.py`, not among the given files) reports
whether the spec enables autoscaling, per the spec's
"autoscaler-enablement flag". -/
def should_have_autoscaler (app_spec : AppSpec) : Bool :=
  app_spec.autoscaler_enabled

/-- Modelled from the spec: `merge_dicts` (in `fiaas_deploy_daemon/tools.py`,
not among the given files) merges label maps with the caller-supplied map
winning on conflicting keys (spec section 4.4 step 1). -/
def merge_dicts (base override : List (String × String)) : List (String × String) :=
  dict_update base override

/-- State of the shell-word splitter: outside quotes, inside single
quotes, or inside double quotes. -/
inductive ShlexMode where
  | norm
  | single
  | double
deriving DecidableEq, Repr

/-- Modelled from the spec: core loop of POSIX shell-word splitting
(`shlex.split`, Python standard library). Outside quotes whitespace
separates words and a backslash escapes the next character; single quotes
are literal; inside double quotes a backslash escapes only a double quote
or a backslash. Malformed input (unterminated quote or trailing escape)
is closed at end of input instead of raising. -/
def shlex_go : ShlexMode → Option String → List Char → List String
  | .norm, none, [] => []
  | .norm, some t, [] => [t]
  | .norm, cur, c :: cs =>
    if c.isWhitespace then
      match cur with
      | none => shlex_go .norm none cs
      | some t => t :: shlex_go .norm none cs
    else if c = '\'' then shlex_go .single (some (cur.getD "")) cs
    else if c = '"' then shlex_go .double (some (cur.getD "")) cs
    else if c = '\\' then
      match cs with
      | [] => match cur with
        | none => []
        | some t => [t]
      | d :: ds => shlex_go .norm (some ((cur.getD "").push d)) ds
    else shlex_go .norm (some ((cur.getD "").push c)) cs
  | .single, cur, [] => [cur.getD ""]
  | .single, cur, c :: cs =>
    if c = '\'' then shlex_go .norm cur cs
    else shlex_go .single (some ((cur.getD "").push c)) cs
  | .double, cur, [] => [cur.getD ""]
  | .double, cur, c :: cs =>
    if c = '"' then shlex_go .norm cur cs
    else if c = '\\' then
      match cs with
      | [] => [(cur.getD "").push '\\']
      | d :: ds =>
        if d = '"' ∨ d = '\\' then shlex_go .double (some ((cur.getD "").push d)) ds
        else shlex_go .double (some (((cur.getD "").push '\\').push d)) ds
    else shlex_go .double (some ((cur.getD "").push c)) cs
termination_by _ _ l => l.length
decreasing_by all_goals simp_arith

/-- Modelled from the spec: `shlex.split` — split a command string into
argv by shell-word-splitting rules. -/
def shlex_split (s : String) : List String :=
  shlex_go .norm none s.toList

/-- Constant `DeploymentDeployer.MINIMUM_GRACE_PERIOD` (current deployer). -/
def MINIMUM_GRACE_PERIOD : Nat := 30

/-- Embedding of `_make_probe` (current deployer,
`deployment/deployer.py`): copy the five timing fields, then set exactly
one of the http-get, tcp-socket or exec actions, in that order of
precedence; with none populated, raise
`RuntimeError` (the spec's `ProbeConfigurationError`). -/
def make_probe (check_spec : CheckSpec) : Except String Probe :=
  let probe : Probe :=
    { initialDelaySeconds := some check_spec.initial_delay_seconds
      timeoutSeconds := some check_spec.timeout_seconds
      successThreshold := some check_spec.success_threshold
      failureThreshold := some check_spec.failure_threshold
      periodSeconds := some check_spec.period_seconds }
  match check_spec.http with
  | some http =>
    .ok { probe with httpGet := some
                       { path := http.path, port := http.port
                         httpHeaders := http.http_headers.map
                           (fun kv => { name := kv.1, value := kv.2 }) } }
  | none =>
    match check_spec.tcp with
    | some tcp => .ok { probe with tcpSocket := some { port := tcp.port } }
    | none =>
      match check_spec.execute with
      | some ex => .ok { probe with _exec := some { command := shlex_split ex.command } }
      | none => .error "AppSpec must have exactly one health check, none was defined."

/-- Embedding of `_make_probe` in the legacy deployer (`deployment.py`):
identical to the current one except that the `failureThreshold` timing
field is never copied from the check spec (the legacy constructor call
omits it, leaving the field unset). -/
def make_probe_legacy (check_spec : CheckSpec) : Except String Probe :=
  let probe : Probe :=
    { initialDelaySeconds := some check_spec.initial_delay_seconds
      timeoutSeconds := some check_spec.timeout_seconds
      successThreshold := some check_spec.success_threshold
      periodSeconds := some check_spec.period_seconds }
  match check_spec.http with
  | some http =>
    .ok { probe with httpGet := some
                       { path := http.path, port := http.port
                         httpHeaders := http.http_headers.map
                           (fun kv => { name := kv.1, value := kv.2 }) } }
  | none =>
    match check_spec.tcp with
    | some tcp => .ok { probe with tcpSocket := some { port := tcp.port } }
    | none =>
      match check_spec.execute with
      | some ex => .ok { probe with _exec := some { command := shlex_split ex.command } }
      | none => .error "AppSpec must have exactly one health check, none was defined."

/-- Embedding of `_make_resource_requirements` (identical in both
deployers): direct field copy. -/
def make_resource_requirements (resources_spec : ResourcesSpec) : ResourceRequirements :=
  { limits := { cpu := resources_spec.limits.cpu, memory := resources_spec.limits.memory }
    requests := { cpu := resources_spec.requests.cpu, memory := resources_spec.requests.memory } }

/-- Embedding of `_add_status_label` (current deployer): copy the label
map, add the status entry to the copy, and return the copy. -/
def add_status_label (labels : List (String × String)) : List (String × String) :=
  let copy := dict_update labels [("fiaas/status", "active")]
  copy

/-- Embedding of `_add_status_label` in the legacy deployer
(`deployment.py`): the copy with the status entry is computed but the
function returns the original `labels` map. -/
def add_status_label_legacy (labels : List (String × String)) : List (String × String) :=
  let _copy := dict_update labels [("fiaas/status", "active")]
  labels

/-- Embedding of `_build_fiaas_env` (current deployer): the reserved
static constants, with three environment-derived entries overlaid when
`config.environment` is truthy. -/
def build_fiaas_env (config : Config) : List (String × String) :=
  let env : List (String × String) :=
    [("FIAAS_INFRASTRUCTURE", config.infrastructure),
     ("LOG_STDOUT", "true"),
     ("LOG_FORMAT", config.log_format),
     ("CONSTRETTO_TAGS", "kubernetes")]
  if config.environment ≠ "" then
    dict_update env
      [("FINN_ENV", config.environment),
       ("FIAAS_ENVIRONMENT", config.environment),
       ("CONSTRETTO_TAGS",
        "kubernetes-" ++ config.environment ++ ",kubernetes," ++ config.environment)]
  else env

/-- The reserved constants of `_make_env`: `_build_fiaas_env` plus the
per-deployment identity values. -/
def make_constants (config : Config) (app_spec : AppSpec) : List (String × String) :=
  dict_set (dict_set (dict_set (build_fiaas_env config)
    "ARTIFACT_NAME" app_spec.name) "IMAGE" app_spec.image) "VERSION" app_spec.version

/-- One iteration of the global-override loop of `_make_env`: a
non-colliding override contributes the bare-named and the
`FIAAS_`-prefixed entry with the same value; a colliding override
contributes nothing (a warning is recorded instead). -/
def global_env_contribution (constants : List (String × String)) (nv : String × String) :
    List EnvVar :=
  if ¬ keys_contain constants ("FIAAS_" ++ nv.1) ∧ ¬ keys_contain constants nv.1 then
    [{ name := nv.1, value := some nv.2 }, { name := "FIAAS_" ++ nv.1, value := some nv.2 }]
  else []

/-- The names of the global overrides that collide with a reserved
constant and are logged at warning level by `_make_env`. -/
def global_env_warnings (constants : List (String × String))
    (global_env : List (String × String)) : List String :=
  (global_env.filter
    (fun nv => keys_contain constants ("FIAAS_" ++ nv.1) || keys_contain constants nv.1)).map
    (fun nv => nv.1)

/-- Helper for the four resource field references of `_make_env`: a
reference to the container's own resource field with divisor 1. -/
def resource_field_env (app_spec : AppSpec) (resource : String) : EnvVarSource :=
  { resourceFieldRef := some
      { containerName := app_spec.name, resource := resource, divisor := 1 } }

/-- The six computed field-reference entries appended by `_make_env`
(current deployer). -/
def field_ref_env (app_spec : AppSpec) : List EnvVar :=
  [{ name := "FIAAS_REQUESTS_CPU", valueFrom := some (resource_field_env app_spec "requests.cpu") },
   { name := "FIAAS_REQUESTS_MEMORY",
     valueFrom := some (resource_field_env app_spec "requests.memory") },
   { name := "FIAAS_LIMITS_CPU", valueFrom := some (resource_field_env app_spec "limits.cpu") },
   { name := "FIAAS_LIMITS_MEMORY",
     valueFrom := some (resource_field_env app_spec "limits.memory") },
   { name := "FIAAS_NAMESPACE",
     valueFrom := some { fieldRef := some { fieldPath := "metadata.namespace" } } },
   { name := "FIAAS_POD_NAME",
     valueFrom := some { fieldRef := some { fieldPath := "metadata.name" } } }]

/-- The environment list of the main container together with the names
logged at warning level while building it. -/
structure EnvResult where
  env : List EnvVar
  warnings : List String
deriving DecidableEq, Repr

/-- Comparison used by the final `env.sort(key=lambda x: x.name)`. -/
def env_le (a b : EnvVar) : Bool :=
  decide (a.name ≤ b.name)

/-- Embedding of `_make_env` (current deployer): reserved constants
overlaid with identity values, the dual-named global overrides, the
computed field references, sorted by variable name. -/
def make_env (config : Config) (app_spec : AppSpec) : EnvResult :=
  let constants := make_constants config app_spec
  let env := constants.map (fun nv => { name := nv.1, value := some nv.2 : EnvVar })
  let global_part := config.global_env.flatMap (global_env_contribution constants)
  let env := env ++ global_part ++ field_ref_env app_spec
  { env := env.mergeSort env_le
    warnings := global_env_warnings constants config.global_env }

/-- The `_fiaas_env` dict of the legacy deployer (`deployment.py`),
built unconditionally in its constructor (the legacy log format is the
literal `json`). -/
def legacy_fiaas_env (config : Config) : List (String × String) :=
  [("FINN_ENV", config.environment),
   ("FIAAS_INFRASTRUCTURE", config.infrastructure),
   ("FIAAS_ENVIRONMENT", config.environment),
   ("CONSTRETTO_TAGS",
    "kubernetes-" ++ config.environment ++ ",kubernetes," ++ config.environment),
   ("LOG_STDOUT", "true"),
   ("LOG_FORMAT", "json")]

/-- Embedding of `_make_env` in the legacy deployer (`deployment.py`):
constants, identity overlay and global overrides as in the current one,
but with no field references appended and no final sort. -/
def make_env_legacy (config : Config) (app_spec : AppSpec) : List EnvVar :=
  let constants := dict_set (dict_set (dict_set (legacy_fiaas_env config)
    "ARTIFACT_NAME" app_spec.name) "IMAGE" app_spec.image) "VERSION" app_spec.version
  let env := constants.map (fun nv => { name := nv.1, value := some nv.2 : EnvVar })
  let global_part := config.global_env.flatMap (global_env_contribution constants)
  env ++ global_part

/-- Embedding of `DeploymentDeployer._make_volumes` (current deployer):
the per-deployment config-map volume and the scratch `tmp` volume,
memory-backed when configured. -/
def make_volumes (config : Config) (app_spec : AppSpec) : List Volume :=
  let empty_dir : EmptyDirVolumeSource :=
    if config.use_in_memory_emptydirs then { medium := some "Memory" } else {}
  [{ name := app_spec.name ++ "-config"
     configMap := some { name := app_spec.name, optional := true } },
   { name := "tmp", emptyDir := some empty_dir }]

/-- Embedding of `DeploymentDeployer._make_volume_mounts` (current
deployer). -/
def make_volume_mounts (app_spec : AppSpec) : List VolumeMount :=
  [{ name := app_spec.name ++ "-config", readOnly := true
     mountPath := "/var/run/config/fiaas/" },
   { name := "tmp", readOnly := false, mountPath := "/tmp" }]

/-- The deprecated init-container compatibility suffix matched by
`_clear_pod_init_container_annotations`. -/
def INIT_CONTAINER_ANNOTATION_SUFFIX : String := "kubernetes.io/init-containers"

/-- Embedding of `_clear_pod_init_container_annotations`: delete every
pod-template annotation whose key ends with the deprecated
init-container suffix, leaving every other annotation and every other
field of the deployment unchanged. -/
def clear_pod_init_container_annotations (deployment : Deployment) : Deployment :=
  let meta := deployment.spec.template.metadata
  let cleared := meta.annotations.filter
    (fun kv => !(kv.1.endsWith INIT_CONTAINER_ANNOTATION_SUFFIX))
  { deployment with spec :=
      { deployment.spec with template :=
          { deployment.spec.template with metadata := { meta with annotations := cleared } } } }

/-- The preStop lifecycle hook configured in the constructor of the
current deployer when `config.pre_stop_delay > 0`. -/
def deployer_lifecycle (config : Config) : Option Lifecycle :=
  if config.pre_stop_delay > 0 then
    some { preStop := { _exec := some { command := ["sleep", toString config.pre_stop_delay] } } }
  else none

/-- The termination grace period configured in the constructor of the
current deployer: the 30-second baseline, extended by the pre-stop delay
when one is configured. -/
def deployer_grace_period (config : Config) : Nat :=
  if config.pre_stop_delay > 0 then MINIMUM_GRACE_PERIOD + config.pre_stop_delay
  else MINIMUM_GRACE_PERIOD

/-- Embedding of `DeploymentDeployer.deploy` (current deployer) up to
`Deployment.get_or_create`: build the full deployment object from the
app spec, the caller-supplied selector and labels, and the current live
object (`live`, `none` when `Deployment.get` raises `NotFound`).
`get_or_create` is modelled from the spec as full-replace construction
of the object from the given metadata and spec. The cross-cutting
collaborators (datadog, prometheus, secrets) are external to this core
and are not modelled. Raises (as `Except.error`) exactly when
`_make_probe` raises. -/
def build_deployment (config : Config) (app_spec : AppSpec)
    (selector labels : List (String × String)) (live : Option Deployment) :
    Except String Deployment := do
  let deployment_labels := merge_dicts app_spec.labels.deployment labels
  let metadata : ObjectMeta :=
    { name := app_spec.name, namespace_ := app_spec.namespace_
      labels := deployment_labels, annotations := app_spec.annotations.deployment }
  let container_ports := app_spec.ports.map
    (fun port_spec => { name := port_spec.name, containerPort := port_spec.target_port : ContainerPort })
  let env := (make_env config app_spec).env
  let pull_policy :=
    if py_in ":" app_spec.image ∧ ¬ py_in ":latest" app_spec.image then "IfNotPresent"
    else "Always"
  let env_from : List EnvFromSource := [{ configMapRef := { name := app_spec.name, optional := true } }]
  let liveness ← make_probe app_spec.health_checks.liveness
  let readiness ← make_probe app_spec.health_checks.readiness
  let containers : List Container :=
    [{ name := app_spec.name, image := app_spec.image, ports := container_ports
       env := env, envFrom := env_from, lifecycle := deployer_lifecycle config
       livenessProbe := liveness, readinessProbe := readiness
       imagePullPolicy := pull_policy, volumeMounts := make_volume_mounts app_spec
       resources := make_resource_requirements app_spec.resources }]
  let pod_spec : PodSpec :=
    { containers := containers, initContainers := []
      volumes := make_volumes config app_spec, serviceAccountName := "default"
      automountServiceAccountToken := app_spec.admin_access
      terminationGracePeriodSeconds := deployer_grace_period config }
  let pod_labels := merge_dicts app_spec.labels.pod (add_status_label labels)
  let pod_metadata : ObjectMeta :=
    { name := app_spec.name, namespace_ := app_spec.namespace_
      labels := pod_labels, annotations := app_spec.annotations.pod }
  let pod_template_spec : PodTemplateSpec := { metadata := pod_metadata, spec := pod_spec }
  let replicas :=
    if should_have_autoscaler app_spec then
      match live with
      | some deployment => deployment.spec.replicas
      | none => app_spec.replicas
    else app_spec.replicas
  let deployment_strategy : DeploymentStrategy :=
    if app_spec.replicas = 1 ∧ app_spec.singleton = true then
      { rollingUpdate := { maxUnavailable := .int 1, maxSurge := .int 0 } }
    else
      { rollingUpdate := { maxUnavailable := config.deployment_max_unavailable
                           maxSurge := config.deployment_max_surge } }
  let spec : DeploymentSpec :=
    { replicas := replicas, selector := { matchLabels := selector }
      template := pod_template_spec, revisionHistoryLimit := 5
      strategy := deployment_strategy }
  pure { metadata := metadata, spec := spec }

/-- Embedding of `DeploymentDeployer.deploy` (current deployer): build
the object, clear the deprecated init-container annotations, and commit.
The returned deployment is the committed (`save`d) object. -/
def deploy (config : Config) (app_spec : AppSpec)
    (selector labels : List (String × String)) (live : Option Deployment) :
    Except String Deployment :=
  (build_deployment config app_spec selector labels live).map
    clear_pod_init_container_annotations

/-- Outcome of one attempted build-and-commit of `deploy`: success, an
optimistic-concurrency conflict, or any other (non-conflict) error. -/
inductive AttemptResult where
  | success
  | conflict
  | otherError
deriving DecidableEq, Repr

/-- Error surfaced by the retry wrapper. -/
inductive RetryError where
  | conflict
  | other
deriving DecidableEq, Repr

/-- Result of running the retry wrapper: the surfaced outcome and the
number of attempts made. -/
structure RetryOutcome where
  result : Except RetryError Unit
  attempts : Nat
deriving Repr

/-- Modelled from the spec: the attempt bound of
`retry_on_upsert_conflict(max_value_seconds=5, max_tries=5)` (in
`fiaas_deploy_daemon/retry.py`, not among the given files). -/
def RETRY_MAX_TRIES : Nat := 5

/-- Modelled from the spec: the backoff cap in seconds of
`retry_on_upsert_conflict(max_value_seconds=5, max_tries=5)`. -/
def RETRY_MAX_VALUE_SECONDS : Nat := 5

/-- Modelled from the spec: capped exponential backoff — the delay before
re-attempt `i` grows exponentially and is capped at
`RETRY_MAX_VALUE_SECONDS`. -/
def retry_backoff_delay (i : Nat) : Nat :=
  min (2 ^ i) RETRY_MAX_VALUE_SECONDS

/-- Modelled from the spec: the bounded conflict-retry loop wrapped
around `deploy` by `retry_on_upsert_conflict`. `f i` is the outcome of
the `i`-th build-and-commit attempt (the whole sequence is re-run, so
fresh live state is read each time). A conflict is retried until the
attempt bound is reached, then surfaced; success and non-conflict errors
return immediately. -/
def run_retry_from (f : Nat → AttemptResult) : Nat → RetryOutcome
  | i =>
    match f i with
    | .success => { result := .ok (), attempts := i + 1 }
    | .otherError => { result := .error .other, attempts := i + 1 }
    | .conflict =>
      if h : i + 1 < RETRY_MAX_TRIES then run_retry_from f (i + 1)
      else { result := .error .conflict, attempts := i + 1 }
termination_by i => RETRY_MAX_TRIES - i

/-- Modelled from the spec: run the retry-wrapped `deploy`, starting at
attempt 0. -/
def run_retry (f : Nat → AttemptResult) : RetryOutcome :=
  run_retry_from f 0

/-- Data errors raised by a transformer or the terminal factory that the
spec factory wraps as `InvalidConfiguration` (the six exception kinds
exercised by `test_parse_errors_raises_invalid_config`). -/
inductive PyError where
  | attributeError
  | keyError
  | indexError
  | valueError
  | typeError
  | nameError
deriving DecidableEq, Repr

/-- The single caller-facing configuration-error kind of spec
resolution, with its cause. -/
inductive InvalidConfiguration where
  | unsupportedVersion
  | wrapped (cause : PyError)
  | validationFailed
deriving DecidableEq, Repr

/-- A raw configuration document: its optional declared `version`, plus
an opaque payload token standing for the rest of the document. -/
structure RawDoc where
  version : Option Nat := none
  payload : Nat := 0
deriving DecidableEq, Repr

/-- Modelled from the spec: the terminal factory of the spec pipeline —
its terminal version number and its parse function from the raw document
of that version to the canonical spec (or a data error). -/
structure BaseFactory where
  version : Nat
  run : RawDoc → Except PyError AppSpec

/-- Modelled from the spec: whole-spec validation of the spec factory —
fails when the datadog integration is enabled while the daemon-wide
datadog container image is absent (per
`test_raise_invalid_config_if_datadog_undefined_and_requested`). -/
def spec_validation_fails (config : Config) (app_spec : AppSpec) : Bool :=
  app_spec.datadog_enabled && config.datadog_container_image.isNone

/-- Modelled from the spec: the transformer-chain loop of
`SpecFactory.__call__` (in `fiaas_deploy_daemon/specs/factory.py`, not
among the given files). From the current version, apply that version's
transformer to reach the next version until the terminal factory's
version is reached, then run the factory and whole-spec validation. A
version above the terminal one, or one below it with no registered
transformer, has no registered transformer/factory. Every data error is
wrapped as `InvalidConfiguration`. -/
def spec_factory_go (factory : BaseFactory)
    (transformers : Nat → Option (RawDoc → Except PyError RawDoc)) (config : Config) :
    Nat → RawDoc → Except InvalidConfiguration AppSpec
  | v, doc =>
    if _h : v = factory.version then
      match factory.run doc with
      | .error e => .error (.wrapped e)
      | .ok app_spec =>
        if spec_validation_fails config app_spec then .error .validationFailed
        else .ok app_spec
    else if _h2 : v < factory.version then
      match transformers v with
      | none => .error .unsupportedVersion
      | some t =>
        match t doc with
        | .error e => .error (.wrapped e)
        | .ok next => spec_factory_go factory transformers config (v + 1) next
    else .error .unsupportedVersion
termination_by v _ => factory.version - v
decreasing_by omega

/-- Modelled from the spec: `SpecFactory.__call__` — read the declared
version (defaulting to the lowest registered version) and run the
transformer chain to the terminal factory. -/
def spec_factory_resolve (factory : BaseFactory)
    (transformers : Nat → Option (RawDoc → Except PyError RawDoc)) (config : Config)
    (lowest_version : Nat) (doc : RawDoc) : Except InvalidConfiguration AppSpec :=
  spec_factory_go factory transformers config (doc.version.getD lowest_version) doc

/-- Fixture: a daemon configuration used by witnesses and counterexamples. -/
def cfg_fix : Config :=
  { infrastructure := "infra", environment := "dev", log_format := "plain"
    global_env := [("A", "1")], use_in_memory_emptydirs := false, pre_stop_delay := 0
    deployment_max_surge := .str "25%", deployment_max_unavailable := .int 0
    datadog_container_image := none }

/-- Fixture: an app spec with autoscaling enabled, two declared replicas
and http health checks, used by witnesses and counterexamples. -/
def app_fix : AppSpec :=
  { name := "app1", namespace_ := "ns", image := "registry/app1:v1", version := "v1"
    replicas := 2, ports := [{ name := "http", target_port := 8080 }]
    health_checks :=
      { liveness := { http := some { path := "/", port := .int 8080, http_headers := [] }
                      initial_delay_seconds := 10, timeout_seconds := 1
                      success_threshold := 1, failure_threshold := 3, period_seconds := 10 }
        readiness := { http := some { path := "/", port := .int 8080, http_headers := [] }
                       initial_delay_seconds := 10, timeout_seconds := 1
                       success_threshold := 1, failure_threshold := 3, period_seconds := 10 } }
    resources := { limits := { cpu := some "1", memory := some "128Mi" }
                   requests := { cpu := some "0.5", memory := some "64Mi" } }
    labels := { deployment := [], pod := [] }
    annotations := { deployment := [], pod := [] }
    admin_access := false, singleton := true, autoscaler_enabled := true
    datadog_enabled := false }

/-- Fixture: a live deployment object with an autoscaler-assigned replica
count of 7, used by witnesses. -/
def live_fix : Deployment :=
  { metadata := { name := "app1", namespace_ := "ns", labels := [], annotations := [] }
    spec := { replicas := 7, selector := { matchLabels := [] }
              template :=
                { metadata := { name := "app1", namespace_ := "ns", labels := [], annotations := [] }
                  spec := { containers := [], initContainers := [], volumes := []
                            serviceAccountName := "default"
                            automountServiceAccountToken := false
                            terminationGracePeriodSeconds := 30 } }
              revisionHistoryLimit := 5
              strategy := { rollingUpdate := { maxUnavailable := .int 0, maxSurge := .int 0 } } } }

/-- C1: with autoscaling enabled, `deploy` commits the live object's
replica count (R, even when it differs from the spec-declared count);
when the read raises not-found (no live object), it commits the
spec-declared count. -/
theorem deploy_replicas_autoscaler (config : Config) (app_spec : AppSpec)
    (selector labels : List (String × String)) (live : Deployment)
    (hauto : should_have_autoscaler app_spec = true)
    (_hne : live.spec.replicas ≠ app_spec.replicas) :
    (deploy config app_spec selector labels (some live)).map (fun d => d.spec.replicas) =
      (deploy config app_spec selector labels (some live)).map (fun _ => live.spec.replicas) ∧
    (deploy config app_spec selector labels none).map (fun d => d.spec.replicas) =
      (deploy config app_spec selector labels none).map (fun _ => app_spec.replicas) := by
  constructor <;>
  · unfold deploy build_deployment
    cases hl : make_probe app_spec.health_checks.liveness <;>
      cases hr : make_probe app_spec.health_checks.readiness <;>
        simp [Except.map, Except.bind, bind, Functor.map, pure, Except.pure, hauto,
              clear_pod_init_container_annotations]

/-- Witness for C1 at the fixtures: the committed replica count is the
live object's 7 rather than the declared 2, and 2 when no live object
exists. -/
theorem deploy_replicas_autoscaler_witness :
    (deploy cfg_fix app_fix [] [] (some live_fix)).map (fun d => d.spec.replicas) =
      Except.ok 7 ∧
    (deploy cfg_fix app_fix [] [] none).map (fun d => d.spec.replicas) = Except.ok 2 := by
  have h := deploy_replicas_autoscaler cfg_fix app_fix [] [] live_fix rfl (by decide)
  exact ⟨h.1.trans (by rfl), h.2.trans (by rfl)⟩
/-- C3: the committed rollout strategy is the forced singleton strategy
(max-surge 0, max-unavailable 1) exactly when the spec declares one
replica and the singleton flag, and the daemon-configured defaults
otherwise. -/
theorem deploy_singleton_strategy (config : Config) (app_spec : AppSpec)
    (selector labels : List (String × String)) (live : Option Deployment) :
    (deploy config app_spec selector labels live).map (fun d => d.spec.strategy) =
      (deploy config app_spec selector labels live).map (fun _ =>
        if app_spec.replicas = 1 ∧ app_spec.singleton = true then
          { rollingUpdate := { maxUnavailable := .int 1, maxSurge := .int 0 } }
        else
          { rollingUpdate := { maxUnavailable := config.deployment_max_unavailable
                               maxSurge := config.deployment_max_surge } }) := by
  unfold deploy build_deployment
  cases hl : make_probe app_spec.health_checks.liveness <;>
    cases hr : make_probe app_spec.health_checks.readiness <;>
      simp [Except.map, Except.bind, bind, Functor.map, pure, Except.pure,
            clear_pod_init_container_annotations]

/-- C10: the main container's image pull policy is `IfNotPresent` exactly
when the image string contains a colon and does not contain `:latest`,
and `Always` otherwise. -/
theorem deploy_image_pull_policy (config : Config) (app_spec : AppSpec)
    (selector labels : List (String × String)) (live : Option Deployment) :
    (deploy config app_spec selector labels live).map
        (fun d => d.spec.template.spec.containers.map (fun c => c.imagePullPolicy)) =
      (deploy config app_spec selector labels live).map (fun _ =>
        [if py_in ":" app_spec.image = true ∧ py_in ":latest" app_spec.image = false then
           "IfNotPresent"
         else "Always"]) := by
  unfold deploy build_deployment
  cases hl : make_probe app_spec.health_checks.liveness <;>
    cases hr : make_probe app_spec.health_checks.readiness <;>
      simp [Except.map, Except.bind, bind, Functor.map, pure, Except.pure,
            clear_pod_init_container_annotations]

/-- C8: on every deploy the object committed is the built object with the
deprecated init-container annotations cleared, and the clearing step
removes exactly the pod-template annotations whose key ends with
`kubernetes.io/init-containers`, leaving every other annotation and
every other field of the object unchanged. -/
theorem deploy_clears_init_container_annotations :
    (∀ config app_spec selector labels live,
      deploy config app_spec selector labels live =
        (build_deployment config app_spec selector labels live).map
          clear_pod_init_container_annotations) ∧
    (∀ d : Deployment,
      (clear_pod_init_container_annotations d).spec.template.metadata.annotations =
        d.spec.template.metadata.annotations.filter
          (fun kv => !(kv.1.endsWith INIT_CONTAINER_ANNOTATION_SUFFIX)) ∧
      (∀ k v, (k, v) ∈ (clear_pod_init_container_annotations d).spec.template.metadata.annotations ↔
        ((k, v) ∈ d.spec.template.metadata.annotations ∧
          k.endsWith INIT_CONTAINER_ANNOTATION_SUFFIX = false)) ∧
      (clear_pod_init_container_annotations d).metadata = d.metadata ∧
      (clear_pod_init_container_annotations d).spec.replicas = d.spec.replicas ∧
      (clear_pod_init_container_annotations d).spec.selector = d.spec.selector ∧
      (clear_pod_init_container_annotations d).spec.revisionHistoryLimit =
        d.spec.revisionHistoryLimit ∧
      (clear_pod_init_container_annotations d).spec.strategy = d.spec.strategy ∧
      (clear_pod_init_container_annotations d).spec.template.metadata.name =
        d.spec.template.metadata.name ∧
      (clear_pod_init_container_annotations d).spec.template.metadata.namespace_ =
        d.spec.template.metadata.namespace_ ∧
      (clear_pod_init_container_annotations d).spec.template.metadata.labels =
        d.spec.template.metadata.labels ∧
      (clear_pod_init_container_annotations d).spec.template.spec = d.spec.template.spec) := by
  refine ⟨fun _ _ _ _ _ => rfl, fun d => ?_⟩
  refine ⟨rfl, fun k v => ?_, rfl, rfl, rfl, rfl, rfl, rfl, rfl, rfl, rfl⟩
  simp [clear_pod_init_container_annotations, List.mem_filter]
/-- Helper: membership of the freshly set key/value pair in a dict after
`dict_set`. -/
theorem mem_dict_set_self (d : List (String × String)) (k v : String) :
    (k, v) ∈ dict_set d k v := by
  unfold dict_set
  by_cases h : keys_contain d k
  · simp only [h, if_true]
    unfold keys_contain at h
    rcases List.any_eq_true.mp h with ⟨kv, hkv, hk⟩
    refine List.mem_map.mpr ⟨kv, hkv, ?_⟩
    simp [hk]
  · simp [h]

/-- Helper: `dict_set` preserves every entry whose key differs from the
one being set. -/
theorem mem_dict_set_other (d : List (String × String)) (k v : String)
    (kv : String × String) (hmem : kv ∈ d) (hne : kv.1 ≠ k) : kv ∈ dict_set d k v := by
  unfold dict_set
  by_cases h : keys_contain d k
  · simp only [h, if_true]
    refine List.mem_map.mpr ⟨kv, hmem, ?_⟩
    simp [hne]
  · simp [h, hmem]

/-- C9 counterexample: on an input map already containing the status
label, the legacy helper's returned map does contain it, refuting the
claim's universal "the returned map does not contain the status label". -/
theorem add_status_label_legacy_counterexample :
    ("fiaas/status", "active") ∈ add_status_label_legacy [("fiaas/status", "active")] := by
  decide

/-- C9 (amended): the legacy helper returns its input map unchanged, so
the status label is absent from its result whenever it was absent from
the input; the current helper returns the copy, which contains
`fiaas/status: active` and preserves every entry with a different key.
(Input maps are never mutated: both helpers update only a copy, which
the pure embedding reflects by construction.) -/
theorem add_status_label_behaviour :
    (∀ labels, add_status_label_legacy labels = labels) ∧
    (∀ labels, ("fiaas/status", "active") ∉ labels →
      ("fiaas/status", "active") ∉ add_status_label_legacy labels) ∧
    (∀ labels, ("fiaas/status", "active") ∈ add_status_label labels) ∧
    (∀ labels (kv : String × String), kv ∈ labels → kv.1 ≠ "fiaas/status" →
      kv ∈ add_status_label labels) := by
  refine ⟨fun _ => rfl, fun labels h => h, fun labels => ?_, fun labels kv hmem hne => ?_⟩
  · have : add_status_label labels = dict_set labels "fiaas/status" "active" := rfl
    rw [this]
    exact mem_dict_set_self labels "fiaas/status" "active"
  · have : add_status_label labels = dict_set labels "fiaas/status" "active" := rfl
    rw [this]
    exact mem_dict_set_other labels "fiaas/status" "active" kv hmem hne

/-- Witness for C9 (amended) at concrete inputs: the legacy helper's
output lacks the status label for an input without it, and the current
helper's output has it. -/
theorem add_status_label_behaviour_witness :
    ("fiaas/status", "active") ∉ add_status_label_legacy [("a", "b")] ∧
    ("fiaas/status", "active") ∈ add_status_label [("a", "b")] := by
  refine ⟨add_status_label_behaviour.2.1 [("a", "b")] (by decide),
          add_status_label_behaviour.2.2.1 [("a", "b")]⟩
/-- C5 counterexample: the environment list built by the legacy builder
(`deployment.py`) for the fixture configuration is not sorted by
variable name (the appended global-override entries follow the constant
entries unsorted), refuting the claim's universal sortedness. -/
theorem make_env_legacy_unsorted_counterexample :
    ¬ (make_env_legacy cfg_fix app_fix).Pairwise (fun a b => a.name ≤ b.name) := by
  intro h
  have h' : List.Pairwise (fun a b : EnvVar => a.name ≤ b.name)
      [{ name := "FINN_ENV", value := some "dev" },
       { name := "FIAAS_INFRASTRUCTURE", value := some "infra" },
       { name := "FIAAS_ENVIRONMENT", value := some "dev" },
       { name := "CONSTRETTO_TAGS", value := some "kubernetes-dev,kubernetes,dev" },
       { name := "LOG_STDOUT", value := some "true" },
       { name := "LOG_FORMAT", value := some "json" },
       { name := "ARTIFACT_NAME", value := some "app1" },
       { name := "IMAGE", value := some "registry/app1:v1" },
       { name := "VERSION", value := some "v1" },
       { name := "A", value := some "1" },
       { name := "FIAAS_A", value := some "1" }] := h
  have hle := (List.pairwise_cons.mp h').1
    { name := "FIAAS_INFRASTRUCTURE", value := some "infra" } (by simp)
  have hlt : ("FIAAS_INFRASTRUCTURE" : String) < "FINN_ENV" :=
    String.lt_iff_toList_lt.mpr (by decide)
  exact hle hlt

/-- C5 (amended): the environment list built by the current builder
(`deployment/deployer.py`) is sorted ascending by variable name, and
building twice from an unchanged spec and configuration yields identical
output for either builder; the legacy builder (`deployment.py`) does not
sort its output. -/
theorem make_env_sorted_and_deterministic :
    (∀ (config : Config) (app_spec : AppSpec),
      ((make_env config app_spec).env).Pairwise (fun a b => a.name ≤ b.name)) ∧
    (∀ (c1 c2 : Config) (a1 a2 : AppSpec), c1 = c2 → a1 = a2 →
      make_env c1 a1 = make_env c2 a2 ∧ make_env_legacy c1 a1 = make_env_legacy c2 a2) := by
  constructor
  · intro config app_spec
    have trans : ∀ a b c : EnvVar, env_le a b → env_le b c → env_le a c := by
      intro a b c hab hbc
      have h1 : a.name ≤ b.name := of_decide_eq_true hab
      have h2 : b.name ≤ c.name := of_decide_eq_true hbc
      exact decide_eq_true (le_trans h1 h2)
    have total : ∀ a b : EnvVar, env_le a b || env_le b a := by
      intro a b
      rcases le_total a.name b.name with h | h
      · simp [env_le, h]
      · simp [env_le, h]
    have hs := List.sorted_mergeSort trans total
      ((make_constants config app_spec).map
          (fun nv => { name := nv.1, value := some nv.2 : EnvVar }) ++
        config.global_env.flatMap (global_env_contribution (make_constants config app_spec)) ++
        field_ref_env app_spec)
    exact hs.imp (fun hab => of_decide_eq_true hab)
  · rintro c1 c2 a1 a2 rfl rfl
    exact ⟨rfl, rfl⟩
/-- C6: a global override colliding with neither the `FIAAS_`-prefixed
form nor the bare form of a reserved constant contributes exactly the
two same-valued entries (bare and prefixed), both present in the built
environment, and is not warned about; a colliding override contributes
no entries (no error is raised — the builder is total) and its name is
recorded as a warning-level event. -/
theorem make_env_global_override_dual_naming
    (config : Config) (app_spec : AppSpec) (n v : String)
    (hmem : (n, v) ∈ config.global_env) :
    (¬ keys_contain (make_constants config app_spec) ("FIAAS_" ++ n) ∧
     ¬ keys_contain (make_constants config app_spec) n →
      global_env_contribution (make_constants config app_spec) (n, v) =
        [{ name := n, value := some v }, { name := "FIAAS_" ++ n, value := some v }] ∧
      ({ name := n, value := some v } : EnvVar) ∈ (make_env config app_spec).env ∧
      ({ name := "FIAAS_" ++ n, value := some v } : EnvVar) ∈ (make_env config app_spec).env ∧
      n ∉ (make_env config app_spec).warnings) ∧
    (keys_contain (make_constants config app_spec) ("FIAAS_" ++ n) = true ∨
     keys_contain (make_constants config app_spec) n = true →
      global_env_contribution (make_constants config app_spec) (n, v) = [] ∧
      n ∈ (make_env config app_spec).warnings) := by
  constructor
  · rintro ⟨h1, h2⟩
    have hc : global_env_contribution (make_constants config app_spec) (n, v) =
        [{ name := n, value := some v }, { name := "FIAAS_" ++ n, value := some v }] := by
      unfold global_env_contribution
      simp only [if_pos (And.intro h1 h2)]
    refine ⟨hc, ?_, ?_, ?_⟩
    · show _ ∈ (make_env config app_spec).env
      simp only [make_env, List.mem_mergeSort, List.mem_append]
      refine Or.inl (Or.inr (List.mem_flatMap.mpr ⟨(n, v), hmem, ?_⟩))
      rw [hc]
      simp
    · show _ ∈ (make_env config app_spec).env
      simp only [make_env, List.mem_mergeSort, List.mem_append]
      refine Or.inl (Or.inr (List.mem_flatMap.mpr ⟨(n, v), hmem, ?_⟩))
      rw [hc]
      simp
    · intro hwarn
      simp only [make_env, global_env_warnings, List.mem_map, List.mem_filter] at hwarn
      rcases hwarn with ⟨kv, ⟨_hkv, hpred⟩, hfst⟩
      rw [hfst] at hpred
      rcases (Bool.or_eq_true _ _).mp hpred with h | h
      · exact h1 h
      · exact h2 h
  · intro hcol
    constructor
    · unfold global_env_contribution
      rcases hcol with h | h <;> simp [h]
    · simp only [make_env, global_env_warnings, List.mem_map]
      refine ⟨(n, v), List.mem_filter.mpr ⟨hmem, ?_⟩, rfl⟩
      rcases hcol with h | h <;> simp [h]

/-- Fixture: the configuration of C6's witness, with one non-colliding
global override (`A`) and one colliding with the reserved `IMAGE`
constant. -/
def cfg_global_fix : Config :=
  { cfg_fix with global_env := [("A", "1"), ("IMAGE", "evil")] }

/-- Witness for C6 at the fixtures: `A` yields exactly the dual-named
pair, both present in the built environment and unwarned; `IMAGE`
contributes nothing and is warned about. -/
theorem make_env_global_override_dual_naming_witness :
    (global_env_contribution (make_constants cfg_global_fix app_fix) ("A", "1") =
        [{ name := "A", value := some "1" }, { name := "FIAAS_A", value := some "1" }] ∧
      ({ name := "A", value := some "1" } : EnvVar) ∈ (make_env cfg_global_fix app_fix).env ∧
      ({ name := "FIAAS_A", value := some "1" } : EnvVar) ∈
        (make_env cfg_global_fix app_fix).env ∧
      "A" ∉ (make_env cfg_global_fix app_fix).warnings) ∧
    (global_env_contribution (make_constants cfg_global_fix app_fix) ("IMAGE", "evil") = [] ∧
      "IMAGE" ∈ (make_env cfg_global_fix app_fix).warnings) := by
  constructor
  · exact (make_env_global_override_dual_naming cfg_global_fix app_fix "A" "1"
      (by decide)).1 (by decide)
  · exact (make_env_global_override_dual_naming cfg_global_fix app_fix "IMAGE" "evil"
      (by decide)).2 (by decide)
/-- Fixture: an http check spec with failure threshold 7, used to show
the legacy probe builder drops the failure threshold. -/
def check_http_fix : CheckSpec :=
  { http := some { path := "/health", port := .int 8080, http_headers := [("X-A", "b")] }
    initial_delay_seconds := 5, timeout_seconds := 2, success_threshold := 1
    failure_threshold := 7, period_seconds := 9 }

/-- Fixture: a check spec with no mechanism populated. -/
def check_empty_fix : CheckSpec :=
  { initial_delay_seconds := 5, timeout_seconds := 2, success_threshold := 1
    failure_threshold := 7, period_seconds := 9 }

/-- C7 counterexample: for a check spec with failure threshold 7, the
legacy probe builder (`deployment.py`) produces a probe with no failure
threshold set, refuting the claim that the builders copy all five timing
fields verbatim. -/
theorem make_probe_legacy_drops_failure_threshold :
    (make_probe_legacy check_http_fix).toOption.map (fun p => p.failureThreshold) =
      some none ∧
    check_http_fix.failure_threshold = 7 := by
  exact ⟨rfl, rfl⟩

/-- C7 (amended): the current probe builder copies the five timing
fields verbatim and sets exactly one of the http-get, tcp-socket or exec
actions (exec argv by shell-word-splitting the command string), failing
with the probe-configuration error when none is populated; the legacy
builder behaves identically except that it leaves the failure threshold
unset. -/
theorem make_probe_behaviour :
    (∀ (cs : CheckSpec) (http : HttpCheckSpec), cs.http = some http →
      make_probe cs = .ok
        { initialDelaySeconds := some cs.initial_delay_seconds
          timeoutSeconds := some cs.timeout_seconds
          successThreshold := some cs.success_threshold
          failureThreshold := some cs.failure_threshold
          periodSeconds := some cs.period_seconds
          httpGet := some
            { path := http.path, port := http.port
              httpHeaders := http.http_headers.map
                (fun kv => { name := kv.1, value := kv.2 }) } }) ∧
    (∀ (cs : CheckSpec) (tcp : TcpCheckSpec), cs.http = none → cs.tcp = some tcp →
      make_probe cs = .ok
        { initialDelaySeconds := some cs.initial_delay_seconds
          timeoutSeconds := some cs.timeout_seconds
          successThreshold := some cs.success_threshold
          failureThreshold := some cs.failure_threshold
          periodSeconds := some cs.period_seconds
          tcpSocket := some { port := tcp.port } }) ∧
    (∀ (cs : CheckSpec) (ex : ExecCheckSpec), cs.http = none → cs.tcp = none →
      cs.execute = some ex →
      make_probe cs = .ok
        { initialDelaySeconds := some cs.initial_delay_seconds
          timeoutSeconds := some cs.timeout_seconds
          successThreshold := some cs.success_threshold
          failureThreshold := some cs.failure_threshold
          periodSeconds := some cs.period_seconds
          _exec := some { command := shlex_split ex.command } }) ∧
    (∀ cs : CheckSpec, cs.http = none → cs.tcp = none → cs.execute = none →
      make_probe cs =
        .error "AppSpec must have exactly one health check, none was defined.") ∧
    (∀ cs : CheckSpec, make_probe_legacy cs =
      (make_probe cs).map (fun p => { p with failureThreshold := none })) := by
  refine ⟨?_, ?_, ?_, ?_, ?_⟩
  · intro cs http hh
    unfold make_probe
    rw [hh]
  · intro cs tcp hh ht
    unfold make_probe
    rw [hh, ht]
  · intro cs ex hh ht he
    unfold make_probe
    rw [hh, ht, he]
  · intro cs hh ht he
    unfold make_probe
    rw [hh, ht, he]
  · intro cs
    unfold make_probe make_probe_legacy
    cases cs.http with
    | some http => rfl
    | none =>
      cases cs.tcp with
      | some tcp => rfl
      | none =>
        cases cs.execute with
        | some ex => rfl
        | none => rfl

/-- Witness for C7 (amended) at the fixtures: the empty check spec fails
with the probe-configuration error, and the http fixture produces an
http-get probe with all five timing fields. -/
theorem make_probe_behaviour_witness :
    make_probe check_empty_fix =
      .error "AppSpec must have exactly one health check, none was defined." ∧
    (make_probe check_http_fix).toOption.map (fun p => p.failureThreshold) =
      some (some 7) := by
  constructor
  · exact make_probe_behaviour.2.2.2.1 check_empty_fix rfl rfl rfl
  · rw [make_probe_behaviour.1 check_http_fix
      { path := "/health", port := .int 8080, http_headers := [("X-A", "b")] } rfl]
    rfl
/-- C2: the conflict-retry policy wrapped around `deploy` is bounded at 5
attempts with backoff capped at 5 seconds; two conflicts followed by a
success yield a successful return after 3 attempts with exactly one
successful commit and no error surfaced; conflicts on every attempt
surface the conflict error after the 5-attempt bound; a non-conflict
error propagates immediately after a single attempt. -/
theorem retry_on_upsert_conflict_policy
    (f g h' : Nat → AttemptResult)
    (hf0 : f 0 = .conflict) (hf1 : f 1 = .conflict) (hf2 : f 2 = .success)
    (hg : ∀ i, g i = .conflict)
    (hh : h' 0 = .otherError) :
    (run_retry f).result = .ok () ∧ (run_retry f).attempts = 3 ∧
    (List.range (run_retry f).attempts).countP (fun i => f i == .success) = 1 ∧
    (run_retry g).result = .error .conflict ∧ (run_retry g).attempts = RETRY_MAX_TRIES ∧
    (run_retry h').result = .error .other ∧ (run_retry h').attempts = 1 ∧
    RETRY_MAX_TRIES = 5 ∧
    (∀ i, retry_backoff_delay i ≤ RETRY_MAX_VALUE_SECONDS) ∧
    RETRY_MAX_VALUE_SECONDS = 5 := by
  have hfrun : run_retry f = { result := .ok (), attempts := 3 } := by
    unfold run_retry
    simp [run_retry_from, RETRY_MAX_TRIES, hf0, hf1, hf2]
  have hgrun : run_retry g = { result := .error .conflict, attempts := 5 } := by
    unfold run_retry
    simp [run_retry_from, RETRY_MAX_TRIES, hg 0, hg 1, hg 2, hg 3, hg 4]
  have hhrun : run_retry h' = { result := .error .other, attempts := 1 } := by
    unfold run_retry
    simp [run_retry_from, hh]
  refine ⟨by rw [hfrun], by rw [hfrun], ?_, by rw [hgrun], by rw [hgrun, RETRY_MAX_TRIES],
          by rw [hhrun], by rw [hhrun], rfl, ?_, rfl⟩
  · rw [hfrun]
    show (List.range 3).countP (fun i => f i == .success) = 1
    have h3 : List.range 3 = [0, 1, 2] := rfl
    rw [h3]
    simp only [List.countP, List.countP.go, hf0, hf1, hf2]
    decide
  · intro i
    exact min_le_right _ _

/-- Fixture: commit attempts that conflict twice then succeed. -/
def attempts_two_conflicts (i : Nat) : AttemptResult :=
  if i < 2 then .conflict else .success

/-- Fixture: commit attempts that conflict every time. -/
def attempts_all_conflict (_i : Nat) : AttemptResult :=
  .conflict

/-- Fixture: commit attempts that fail with a non-conflict error. -/
def attempts_other_error (_i : Nat) : AttemptResult :=
  .otherError

/-- Witness for C2 at the fixtures: two conflicts then success gives a
successful result in 3 attempts; constant conflict surfaces the conflict
error at the bound; a non-conflict error returns after one attempt. -/
theorem retry_on_upsert_conflict_policy_witness :
    (run_retry attempts_two_conflicts).result = .ok () ∧
    (run_retry attempts_two_conflicts).attempts = 3 ∧
    (run_retry attempts_all_conflict).result = .error .conflict ∧
    (run_retry attempts_other_error).attempts = 1 := by
  have h := retry_on_upsert_conflict_policy attempts_two_conflicts attempts_all_conflict
    attempts_other_error rfl rfl rfl (fun _ => rfl) rfl
  exact ⟨h.1, h.2.1, h.2.2.2.1, h.2.2.2.2.2.2.1⟩
/-- C4: spec resolution fails with `InvalidConfiguration` exactly when
the declared version has no registered transformer/factory (above the
terminal version, or below it with no transformer), when a transformer
or the terminal factory raises a data error, or when whole-spec
validation fails (datadog enabled without the daemon-wide container
image); on success it returns the canonical spec produced by the
terminal factory. -/
theorem spec_factory_invalid_configuration (factory : BaseFactory)
    (transformers : Nat → Option (RawDoc → Except PyError RawDoc)) (config : Config)
    (lowest_version : Nat) :
    (∀ (doc : RawDoc) (v : Nat), doc.version = some v → factory.version < v →
      spec_factory_resolve factory transformers config lowest_version doc =
        .error .unsupportedVersion) ∧
    (∀ (doc : RawDoc) (v : Nat), doc.version = some v → v < factory.version →
      transformers v = none →
      spec_factory_resolve factory transformers config lowest_version doc =
        .error .unsupportedVersion) ∧
    (∀ (doc : RawDoc) (v : Nat) (t : RawDoc → Except PyError RawDoc) (e : PyError),
      doc.version = some v → v < factory.version → transformers v = some t →
      t doc = .error e →
      spec_factory_resolve factory transformers config lowest_version doc =
        .error (.wrapped e)) ∧
    (∀ (doc : RawDoc) (e : PyError), doc.version = some factory.version →
      factory.run doc = .error e →
      spec_factory_resolve factory transformers config lowest_version doc =
        .error (.wrapped e)) ∧
    (∀ (doc : RawDoc) (app_spec : AppSpec), doc.version = some factory.version →
      factory.run doc = .ok app_spec → app_spec.datadog_enabled = true →
      config.datadog_container_image = none →
      spec_factory_resolve factory transformers config lowest_version doc =
        .error .validationFailed) ∧
    (∀ (doc : RawDoc) (app_spec : AppSpec), doc.version = some factory.version →
      factory.run doc = .ok app_spec →
      (app_spec.datadog_enabled = true → config.datadog_container_image ≠ none) →
      spec_factory_resolve factory transformers config lowest_version doc =
        .ok app_spec) := by
  refine ⟨?_, ?_, ?_, ?_, ?_, ?_⟩
  · intro doc v hv hgt
    unfold spec_factory_resolve
    rw [hv]
    show spec_factory_go factory transformers config v doc = _
    unfold spec_factory_go
    rw [dif_neg (by omega), dif_neg (by omega)]
  · intro doc v hv hlt htr
    unfold spec_factory_resolve
    rw [hv]
    show spec_factory_go factory transformers config v doc = _
    unfold spec_factory_go
    rw [dif_neg (by omega), dif_pos hlt, htr]
  · intro doc v t e hv hlt htr hte
    unfold spec_factory_resolve
    rw [hv]
    show spec_factory_go factory transformers config v doc = _
    unfold spec_factory_go
    rw [dif_neg (by omega), dif_pos hlt, htr]
    simp only [hte]
  · intro doc e hv hrun
    unfold spec_factory_resolve
    rw [hv]
    show spec_factory_go factory transformers config factory.version doc = _
    unfold spec_factory_go
    rw [dif_pos rfl, hrun]
  · intro doc app_spec hv hrun hdd himg
    unfold spec_factory_resolve
    rw [hv]
    show spec_factory_go factory transformers config factory.version doc = _
    unfold spec_factory_go
    rw [dif_pos rfl, hrun]
    simp [spec_validation_fails, hdd, himg]
  · intro doc app_spec hv hrun hval
    unfold spec_factory_resolve
    rw [hv]
    show spec_factory_go factory transformers config factory.version doc = _
    unfold spec_factory_go
    rw [dif_pos rfl, hrun]
    have hfail : spec_validation_fails config app_spec = false := by
      unfold spec_validation_fails
      cases hd : app_spec.datadog_enabled with
      | false => simp
      | true =>
        have := hval hd
        cases hi : config.datadog_container_image with
        | none => exact absurd hi this
        | some img => simp [hi]
    simp [hfail]

/-- Fixture: a terminal factory at version 3 always producing the app
fixture. -/
def factory_fix : BaseFactory :=
  { version := 3, run := fun _ => .ok app_fix }

/-- Fixture: transformers registered for versions 1 and 2 only. -/
def transformers_fix : Nat → Option (RawDoc → Except PyError RawDoc) :=
  fun v => if v = 1 ∨ v = 2 then some (fun _ => .ok { version := some (v + 1) }) else none

/-- Witness for C4 at the fixtures: the unsupported declared version 999
fails with `InvalidConfiguration`, and a version-3 document resolves to
the factory's canonical spec. -/
theorem spec_factory_invalid_configuration_witness :
    spec_factory_resolve factory_fix transformers_fix cfg_fix 1 { version := some 999 } =
      .error .unsupportedVersion ∧
    spec_factory_resolve factory_fix transformers_fix cfg_fix 1 { version := some 3 } =
      .ok app_fix := by
  have h := spec_factory_invalid_configuration factory_fix transformers_fix cfg_fix 1
  constructor
  · exact h.1 { version := some 999 } 999 rfl (by decide)
  · exact h.2.2.2.2.2 { version := some 3 } app_fix rfl rfl (fun hdd => by simp [app_fix] at hdd)

/-- Witness for C5 (amended) at the fixtures: the current builder's
output for the fixtures is sorted by name, and rebuilding from the
unchanged fixtures gives identical output. -/
theorem make_env_sorted_and_deterministic_witness :
    ((make_env cfg_fix app_fix).env).Pairwise (fun a b => a.name ≤ b.name) ∧
    make_env cfg_fix app_fix = make_env cfg_fix app_fix := by
  exact ⟨make_env_sorted_and_deterministic.1 cfg_fix app_fix,
    (make_env_sorted_and_deterministic.2 cfg_fix cfg_fix app_fix app_fix rfl rfl).1⟩
